import Mathlib

/-!
Verification development for the klear-api clearing & settlement pipeline.

The Go source is shallowly embedded:
* `float64` money/quantity arithmetic is modelled by exact rationals (`ℚ`);
* timestamps (`time.Time`) are modelled by integers (`Int`), with comparisons
  mirroring `Before`/`After`;
* the pseudo-random draws of the execution simulator are explicit oracle
  parameters (`RandDraws`), one per routing attempt;
* the relational store is modelled by lists of records, and a gorm
  transaction by a staged state that is installed only on commit;
* fallible operations return `Except`/`Option`.
-/

namespace Klear

/-! ## Shared record types (internal/types) -/

namespace types

/-- Embeds `types.Order` (internal/types): identity, client, symbol, side,
order kind, quantity, price, status, creation time. -/
structure Order where
  orderID : String
  clientID : String
  symbol : String
  side : String
  orderType : String
  quantity : ℚ
  price : ℚ
  status : String
  createdAt : Int
  deriving Repr, DecidableEq

/-- Embeds `types.ExchangeFill`: one venue's partial contribution. -/
structure ExchangeFill where
  exchangeID : String
  exchangeName : String
  price : ℚ
  quantity : ℚ
  feeRate : ℚ
  feeAmount : ℚ
  deriving Repr, DecidableEq

/-- Embeds `types.Execution`: the aggregate result of routing one order. -/
structure Execution where
  executionID : String
  orderID : String
  totalQuantity : ℚ
  averagePrice : ℚ
  side : String
  status : String
  fills : List ExchangeFill
  createdAt : Int
  deriving Repr, DecidableEq

end types

/-! ## Execution router (internal/exchange/exchange.go) -/

namespace exchange

/-- Embeds the `Exchange` struct: a simulated venue profile. -/
structure Exchange where
  id : String
  name : String
  minLatency : Int
  maxLatency : Int
  liquidityFactor : ℚ
  successRate : ℚ
  feeRate : ℚ
  deriving Repr, DecidableEq

/-- First entry of the `mockExchanges` registry; `GetBestExchange` falls back
to it when no cumulative weight reaches the sampled threshold. -/
def primaryExchange : Exchange :=
  { id := "EXCH1", name := "Primary Exchange", minLatency := 5, maxLatency := 30,
    liquidityFactor := 0.9, successRate := 0.95, feeRate := 0.001 }

/-- Embeds the static `mockExchanges` registry. -/
def mockExchanges : List Exchange :=
  [ primaryExchange,
    { id := "EXCH2", name := "Secondary Exchange", minLatency := 10, maxLatency := 50,
      liquidityFactor := 0.7, successRate := 0.90, feeRate := 0.0008 },
    { id := "EXCH3", name := "Regional Exchange", minLatency := 15, maxLatency := 70,
      liquidityFactor := 0.5, successRate := 0.85, feeRate := 0.0005 },
    { id := "EXCH4", name := "Dark Pool", minLatency := 20, maxLatency := 100,
      liquidityFactor := 0.3, successRate := 0.75, feeRate := 0.0003 } ]

/-- The selection weight of a venue, `LiquidityFactor * SuccessRate`. -/
def exchangeWeight (e : Exchange) : ℚ := e.liquidityFactor * e.successRate

/-- `totalWeight` accumulated over the registry in `GetBestExchange`. -/
def totalWeight : ℚ := (mockExchanges.map exchangeWeight).sum

/-- The cumulative-weight scan of `GetBestExchange`: returns the first venue
whose running weight reaches `choice`. -/
def selectByWeight (choice : ℚ) : ℚ → List Exchange → Option Exchange
  | _, [] => none
  | cum, e :: rest =>
    if choice ≤ cum + exchangeWeight e then some e
    else selectByWeight choice (cum + exchangeWeight e) rest

/-- Embeds `GetBestExchange`: `u` is the `rand.Float64()` draw; the sampled
threshold is `u * totalWeight`; falls back to `mockExchanges[0]`. -/
def getBestExchange (u : ℚ) : Exchange :=
  (selectByWeight (u * totalWeight) 0 mockExchanges).getD primaryExchange

/-- The pseudo-random draws one `ExecuteOrder` attempt consumes, plus the
venue-selection draw of the surrounding loop iteration. -/
structure RandDraws where
  venueChoice : ℚ
  successDraw : ℚ
  priceDraw : ℚ
  liquidityDraw : ℚ
  deriving Repr, DecidableEq

/-- Embeds `Exchange.ExecuteOrder` on one venue: fail when the success draw
exceeds the success rate; perturb the price by ±2%; shrink the quantity to
`quantity * liquidityFactor` when the liquidity draw exceeds the liquidity
factor, failing if the shrunk quantity is zero; emit a fill with
`fee = price * quantity * feeRate`. The simulated latency sleep has no
observable effect and is dropped. -/
def executeOrder (e : Exchange) (orderQty orderPrice : ℚ) (r : RandDraws) :
    Option types.ExchangeFill :=
  if e.successRate < r.successDraw then none
  else
    let priceVariance := orderPrice * (1 + (r.priceDraw * (4 / 100) - 2 / 100))
    if e.liquidityFactor < r.liquidityDraw then
      let executedQty := orderQty * e.liquidityFactor
      if executedQty = 0 then none
      else some { exchangeID := e.id, exchangeName := e.name, price := priceVariance,
                  quantity := executedQty, feeRate := e.feeRate,
                  feeAmount := priceVariance * executedQty * e.feeRate }
    else some { exchangeID := e.id, exchangeName := e.name, price := priceVariance,
                quantity := orderQty, feeRate := e.feeRate,
                feeAmount := priceVariance * orderQty * e.feeRate }

/-- Accumulator of the `ExecuteOrderAcrossExchanges` loop. -/
structure RouteState where
  fills : List types.ExchangeFill
  totalExecutedQty : ℚ
  weightedPrice : ℚ
  remainingQty : ℚ
  deriving Repr, DecidableEq

/-- The attempt loop of `ExecuteOrderAcrossExchanges`: one `RandDraws` per
iteration; stops early once `remainingQty ≤ 0`; a failed attempt leaves the
state unchanged; a fill is appended and the running totals updated. -/
def routeAttempts (orderPrice : ℚ) : List RandDraws → RouteState → RouteState
  | [], st => st
  | r :: rs, st =>
    if st.remainingQty ≤ 0 then st
    else
      match executeOrder (getBestExchange r.venueChoice) st.remainingQty orderPrice r with
      | none => routeAttempts orderPrice rs st
      | some f =>
        routeAttempts orderPrice rs
          { fills := st.fills ++ [f],
            totalExecutedQty := st.totalExecutedQty + f.quantity,
            weightedPrice := st.weightedPrice + f.price * f.quantity,
            remainingQty := st.remainingQty - f.quantity }

/-- Embeds `ExecuteOrderAcrossExchanges`: up to 3 attempts (the `i < 3` loop
bound is `rands.take 3`); zero fills is the "failed to execute order on any
exchange" error; otherwise the fills aggregate into one COMPLETED execution
with `averagePrice = weightedPrice / totalExecutedQty`. -/
def executeOrderAcrossExchanges (order : types.Order) (rands : List RandDraws) :
    Option types.Execution :=
  let st := routeAttempts order.price (rands.take 3)
    { fills := [], totalExecutedQty := 0, weightedPrice := 0, remainingQty := order.quantity }
  if st.fills = [] then none
  else some
    { executionID := "EXEC", orderID := order.orderID,
      totalQuantity := st.totalExecutedQty,
      averagePrice := st.weightedPrice / st.totalExecutedQty,
      side := order.side, status := "COMPLETED", fills := st.fills, createdAt := 0 }

end exchange

/-! ## Netting, margin and clearing validation (internal/clearing) -/

namespace clearing

/-- Embeds the `Clearing` record (internal/clearing/models.go): one order's
clearing outcome. -/
structure Clearing where
  clearingID : String
  tradeID : String
  clearingStatus : String
  marginRequired : ℚ
  netPositions : ℚ
  settlementAmount : ℚ
  deriving Repr, DecidableEq

/-- Embeds `TradeNetting`: a netting computation scoped to one symbol and one
trailing window. `OriginalTrades` (a JSON array of execution IDs in the
source) is modelled as the list of IDs it encodes. -/
structure TradeNetting where
  nettingID : String
  symbol : String
  windowStart : Int
  windowEnd : Int
  netQuantity : ℚ
  netAmount : ℚ
  netSettlement : ℚ
  netMargin : ℚ
  status : String
  originalTrades : List String
  deriving Repr, DecidableEq

/-- Embeds `ClearingResponse`. -/
structure ClearingResponse where
  clearingID : String
  clearingStatus : String
  marginRequired : ℚ
  netPositions : ℚ
  settlementAmount : ℚ
  deriving Repr, DecidableEq

/-- The relational state the clearing service reads: the `executions` and
`orders` tables. -/
structure ClearingDB where
  executions : List types.Execution
  orders : List types.Order
  deriving Repr, DecidableEq

/-- Lookup of an order row by `order_id` (unique index). -/
def findOrder (db : ClearingDB) (orderID : String) : Option types.Order :=
  db.orders.find? (fun o => o.orderID == orderID)

/-- Lookup of an execution row by `execution_id` (unique index); embeds
`GetExecutionByID`. -/
def getExecutionByID (db : ClearingDB) (executionID : String) : Option types.Execution :=
  db.executions.find? (fun e => e.executionID == executionID)

/-- Embeds `GetTradesForNetting`: the SQL
`JOIN orders ON orders.order_id = executions.order_id
 WHERE orders.symbol = ? AND executions.created_at > ?`.
Note: the query has no filter on `executions.status`. -/
def getTradesForNetting (db : ClearingDB) (symbol : String) (windowStart : Int) :
    List types.Execution :=
  db.executions.filter (fun e =>
    match findOrder db e.orderID with
    | some o => o.symbol == symbol && windowStart < e.createdAt
    | none => false)

/-- One second; timestamps are integer seconds. -/
def second : Int := 1

/-- One hour of integer time. -/
def hour : Int := 3600 * second

/-- The multilateral-netting loop of `calculateTradeNetting`: accumulates
`(tradeIDs, netQuantity, netAmount)` over the fetched executions, resolving
each parent order through the pre-fetched order map (a by-id lookup); BUY
adds the signed quantity/amount, any other side subtracts; an unresolvable
parent order aborts with an error. -/
def netTrades (db : ClearingDB) :
    List types.Execution → List String × ℚ × ℚ → Except String (List String × ℚ × ℚ)
  | [], acc => .ok acc
  | e :: rest, (ids, q, a) =>
    match findOrder db e.orderID with
    | none => .error ("order not found for execution " ++ e.executionID)
    | some ord =>
      if ord.side = "BUY" then
        netTrades db rest (ids ++ [e.executionID], q + e.totalQuantity,
          a + e.totalQuantity * e.averagePrice)
      else
        netTrades db rest (ids ++ [e.executionID], q - e.totalQuantity,
          a - e.totalQuantity * e.averagePrice)

/-- `baseMarginRate` constant: 10% base margin requirement. -/
def baseMarginRate : ℚ := 0.10

/-- `marketVolatilityMultiplier` constant: 20% extra for volatile markets. -/
def marketVolatilityMultiplier : ℚ := 1.2

/-- `concentrationMultiplier` constant: 15% extra for concentrated positions. -/
def concentrationMultiplier : ℚ := 1.15

/-- Embeds `calculateTradeNetting`: window start `now - 24h`; fetch same-symbol
trades in the window; net them by side; `netSettlement = |netAmount|`; margin
is `netSettlement * baseMarginRate`, then `* marketVolatilityMultiplier`
unconditionally, then `* concentrationMultiplier` only when
`|netQuantity| > 1000`; status COMPLETED on success. -/
def calculateTradeNetting (db : ClearingDB) (order : types.Order) (now : Int) :
    Except String TradeNetting :=
  let nettingWindowStart := now - 24 * hour
  let executions := getTradesForNetting db order.symbol nettingWindowStart
  match netTrades db executions ([], 0, 0) with
  | .error msg => .error msg
  | .ok (tradeIDs, netQuantity, netAmount) =>
    let netSettlement := |netAmount|
    let marginBase := netSettlement * baseMarginRate
    let marginVol := marginBase * marketVolatilityMultiplier
    let netMargin :=
      if 1000 < |netQuantity| then marginVol * concentrationMultiplier else marginVol
    .ok { nettingID := "NET", symbol := order.symbol,
          windowStart := nettingWindowStart, windowEnd := now,
          netQuantity := netQuantity, netAmount := netAmount,
          netSettlement := netSettlement, netMargin := netMargin,
          status := "COMPLETED", originalTrades := tradeIDs }

/-- `maxDailyNetPosition` risk-limit constant ($1M). -/
def maxDailyNetPosition : ℚ := 1000000

/-- `maxMarginUtilization` risk-limit constant (80%). -/
def maxMarginUtilization : ℚ := 0.80

/-- `availableMargin` risk-limit constant ($1M). -/
def availableMargin : ℚ := 1000000

/-- `positionLimit` risk-limit constant ($500K per trade). -/
def positionLimit : ℚ := 500000

/-- `dailyTradingLimit` risk-limit constant ($5M). -/
def dailyTradingLimit : ℚ := 5000000

/-- Market open, minutes since local midnight (source: 1:30). -/
def marketOpenMinutes : Int := 90

/-- Market close, minutes since local midnight (source: 23:00). -/
def marketCloseMinutes : Int := 1380

/-- Risk-score acceptance threshold. -/
def riskThreshold : ℚ := 0.8

/-- The structured failure reasons of `validateClearing`, one per `return`
with an error in the source. -/
inductive GateError where
  | invalidSettlementAmount
  | settlementExceedsPositionLimit
  | invalidMarginRequirement
  | marginUtilizationExceeded
  | netPositionExceeded
  | volumeExceeded
  | outsideMarketHours
  | riskScoreExceeded
  deriving Repr, DecidableEq

/-- Embeds `calculateMockRiskScore`:
`min(0.4*min(|netPositions|/1e6,1) + 0.3*(marginRequired/1e6) + 0.3*volatility, 1)`
with `volatility = 0.15`, multiplied by 1.2 for MARKET orders. -/
def calculateMockRiskScore (clearing : Clearing) (order : types.Order) : ℚ :=
  let positionRisk := min (|clearing.netPositions| / 1000000) 1
  let marginRisk := clearing.marginRequired / 1000000
  let mockVolatility := if order.orderType = "MARKET" then 0.15 * 1.2 else (0.15 : ℚ)
  min (positionRisk * 0.4 + marginRisk * 0.3 + mockVolatility * 0.3) 1

/-- The environment `validateClearing` reads beyond its arguments: the
client's same-day aggregates returned by `GetDailyNetPosition` /
`GetDailyTradingVolume`, and the wall clock as minutes since local
midnight (for the market-hours check). -/
structure RiskEnv where
  dailyNetPosition : ℚ
  dailyTradingVolume : ℚ
  nowMinutes : Int
  deriving Repr, DecidableEq

/-- Embeds `validateClearing`: the sequential checks of the source, in source
order, each returning its error immediately. -/
def validateClearing (env : RiskEnv) (clearing : Clearing) (order : types.Order) :
    Except GateError Unit :=
  if clearing.settlementAmount ≤ 0 then .error .invalidSettlementAmount
  else if positionLimit < clearing.settlementAmount then .error .settlementExceedsPositionLimit
  else if clearing.marginRequired ≤ 0 then .error .invalidMarginRequirement
  else if maxMarginUtilization < clearing.marginRequired / availableMargin then
    .error .marginUtilizationExceeded
  else if maxDailyNetPosition < |env.dailyNetPosition + clearing.netPositions| then
    .error .netPositionExceeded
  else if dailyTradingLimit < env.dailyTradingVolume + clearing.settlementAmount then
    .error .volumeExceeded
  else if env.nowMinutes < marketOpenMinutes ∨ marketCloseMinutes < env.nowMinutes then
    .error .outsideMarketHours
  else if riskThreshold < calculateMockRiskScore clearing order then
    .error .riskScoreExceeded
  else .ok ()

/-- Spec-side gate 1 (settlement amount): `> 0` and `≤ positionLimit`. -/
def settlementAmountGate (_ : RiskEnv) (c : Clearing) (_ : types.Order) : Option GateError :=
  if c.settlementAmount ≤ 0 then some .invalidSettlementAmount
  else if positionLimit < c.settlementAmount then some .settlementExceedsPositionLimit
  else none

/-- Spec-side gate 2 (margin): `> 0` and utilization `≤ maxMarginUtilization`. -/
def marginGate (_ : RiskEnv) (c : Clearing) (_ : types.Order) : Option GateError :=
  if c.marginRequired ≤ 0 then some .invalidMarginRequirement
  else if maxMarginUtilization < c.marginRequired / availableMargin then
    some .marginUtilizationExceeded
  else none

/-- Spec-side gate 3 (daily net position). -/
def netPositionGate (env : RiskEnv) (c : Clearing) (_ : types.Order) : Option GateError :=
  if maxDailyNetPosition < |env.dailyNetPosition + c.netPositions| then
    some .netPositionExceeded
  else none

/-- Spec-side gate 4 (daily trading volume). -/
def volumeGate (env : RiskEnv) (c : Clearing) (_ : types.Order) : Option GateError :=
  if dailyTradingLimit < env.dailyTradingVolume + c.settlementAmount then
    some .volumeExceeded
  else none

/-- Spec-side gate 5 (market hours): reject `before(open) || after(close)`. -/
def marketHoursGate (env : RiskEnv) (_ : Clearing) (_ : types.Order) : Option GateError :=
  if env.nowMinutes < marketOpenMinutes ∨ marketCloseMinutes < env.nowMinutes then
    some .outsideMarketHours
  else none

/-- Spec-side gate 6 (composite risk score). -/
def riskScoreGate (_ : RiskEnv) (c : Clearing) (o : types.Order) : Option GateError :=
  if riskThreshold < calculateMockRiskScore c o then some .riskScoreExceeded else none

/-- The ordered gate chain of the spec (§4.4): settlement amount, margin,
daily net position, daily volume, market hours, risk score. -/
def clearingGates : List (RiskEnv → Clearing → types.Order → Option GateError) :=
  [settlementAmountGate, marginGate, netPositionGate, volumeGate, marketHoursGate,
   riskScoreGate]

/-- Short-circuit evaluation of an ordered gate list: the first failing gate
determines the error. -/
def firstGateFailure (env : RiskEnv) (c : Clearing) (o : types.Order) :
    List (RiskEnv → Clearing → types.Order → Option GateError) → Option GateError
  | [] => none
  | g :: gs =>
    match g env c o with
    | some e => some e
    | none => firstGateFailure env c o gs

/-- Embeds `processClearingCalculations`: overwrite the clearing's settlement
amount with `averagePrice * totalQuantity` and its net position with the
signed executed quantity (negative for SELL), then validate; the mutated
clearing is returned alongside the validation outcome (the source mutates
through a pointer, so the caller sees the updated fields even on failure). -/
def processClearingCalculations (env : RiskEnv) (c : Clearing)
    (execution : types.Execution) (order : types.Order) :
    Clearing × Except GateError Unit :=
  let positionMultiplier : ℚ := if execution.side = "SELL" then -1 else 1
  let c' := { c with
    settlementAmount := execution.averagePrice * execution.totalQuantity,
    netPositions := execution.totalQuantity * positionMultiplier }
  (c', validateClearing env c' order)

/-- The clearing service's own tables: `clearings` and `trade_nettings`. -/
structure ClearingStore where
  clearings : List Clearing
  nettings : List TradeNetting
  deriving Repr, DecidableEq

/-- gorm `Save` on the clearings table: update the row with the same
`clearing_id` if present, insert otherwise. -/
def saveClearingRow (rows : List Clearing) (c : Clearing) : List Clearing :=
  if rows.any (fun r => r.clearingID == c.clearingID) then
    rows.map (fun r => if r.clearingID == c.clearingID then c else r)
  else rows ++ [c]

/-- Store-failure oracle for the `SaveNettingResult` transaction: whether each
of the two writes and the final commit fails. -/
structure TxOutcome where
  createNettingFails : Bool
  saveClearingFails : Bool
  commitFails : Bool
  deriving Repr, DecidableEq

/-- Embeds `SaveNettingResult`: begin a transaction, `tx.Create` the netting,
`tx.Save` the clearing, commit. Each failure rolls the transaction back, so
the committed store is returned unchanged; only a successful commit installs
the staged state. -/
def saveNettingResult (txo : TxOutcome) (netting : TradeNetting) (c : Clearing)
    (store : ClearingStore) : Except String Unit × ClearingStore :=
  let tx0 := store
  if txo.createNettingFails then (.error "failed to save netting record", store)
  else
    let tx1 := { tx0 with nettings := tx0.nettings ++ [netting] }
    if txo.saveClearingFails then (.error "failed to update clearing record", store)
    else
      let tx2 := { tx1 with clearings := saveClearingRow tx1.clearings c }
      if txo.commitFails then (.error "commit failed", store)
      else (.ok (), tx2)

/-- The failure taxonomy of `ClearTrade`, one constructor per early return. -/
inductive ClearTradeErr where
  | executionNotFound
  | orderNotFound
  | nettingFailed (msg : String)
  | validationFailed (e : GateError)
  | saveFailed (msg : String)
  deriving Repr, DecidableEq

/-- Embeds `ClearTrade`: create a PENDING clearing record in memory; resolve
the execution (by `execution_id = tradeID`) and its order; run the netting;
on netting failure persist the clearing as FAILED and surface the error; copy
the netted values onto the clearing; run `processClearingCalculations`; on a
validation failure persist the (mutated) clearing as FAILED and surface the
gate error; otherwise mark it CLEARED and save netting and clearing in one
transaction, surfacing any save failure. -/
def clearTrade (newClearingID : String) (now : Int) (env : RiskEnv) (txo : TxOutcome)
    (db : ClearingDB) (store : ClearingStore) (tradeID : String) :
    Except ClearTradeErr ClearingResponse × ClearingStore :=
  let clearing0 : Clearing :=
    { clearingID := newClearingID, tradeID := tradeID, clearingStatus := "PENDING",
      marginRequired := 0, netPositions := 0, settlementAmount := 0 }
  match getExecutionByID db tradeID with
  | none => (.error .executionNotFound, store)
  | some execution =>
    match findOrder db execution.orderID with
    | none => (.error .orderNotFound, store)
    | some order =>
      match calculateTradeNetting db order now with
      | .error msg =>
        (.error (.nettingFailed msg),
         { store with clearings :=
             store.clearings ++ [{ clearing0 with clearingStatus := "FAILED" }] })
      | .ok nettingResult =>
        let clearing1 := { clearing0 with
          netPositions := nettingResult.netQuantity,
          settlementAmount := nettingResult.netSettlement,
          marginRequired := nettingResult.netMargin }
        match processClearingCalculations env clearing1 execution order with
        | (clearing2, .error e) =>
          (.error (.validationFailed e),
           { store with clearings :=
               store.clearings ++ [{ clearing2 with clearingStatus := "FAILED" }] })
        | (clearing2, .ok _) =>
          let clearing3 := { clearing2 with clearingStatus := "CLEARED" }
          match saveNettingResult txo nettingResult clearing3 store with
          | (.error msg, store') => (.error (.saveFailed msg), store')
          | (.ok _, store') =>
            (.ok { clearingID := clearing3.clearingID,
                   clearingStatus := clearing3.clearingStatus,
                   marginRequired := clearing3.marginRequired,
                   netPositions := clearing3.netPositions,
                   settlementAmount := clearing3.settlementAmount }, store')

end clearing

/-! ## Settlement state machine (internal/settlement) -/

namespace settlement

/-- Embeds the `Settlement` record (the fields the processor reads/writes). -/
structure Settlement where
  settlementID : String
  tradeID : String
  clientID : String
  settlementStatus : String
  settlementDate : Int
  finalAmount : ℚ
  updatedAt : Int
  deriving Repr, DecidableEq

/-- Embeds `GetPendingSettlements`: the rows with
`settlement_status = 'PENDING'`. -/
def getPendingSettlements (db : List Settlement) : List Settlement :=
  db.filter (fun s => s.settlementStatus == "PENDING")

/-- gorm `Save` by the unique `settlement_id` index: replace matching rows. -/
def updateSettlementRow (db : List Settlement) (s : Settlement) : List Settlement :=
  db.map (fun r => if r.settlementID == s.settlementID then s else r)

/-- One iteration of the `processPendingSettlements` loop over a fetched
settlement `s`: skip while `now` is before the settlement date; otherwise
switch on the status — PENDING becomes SETTLING; SETTLING becomes SETTLED
when the simulated verification succeeds (and is merely re-saved otherwise);
FAILED is skipped with a log-only notice; any other status falls through the
switch and is re-saved with a fresh `UpdatedAt`. The simulated verification
outcome is the oracle `verify`. -/
def processOne (now : Int) (verify : Settlement → Bool) (db : List Settlement)
    (s : Settlement) : List Settlement :=
  if now < s.settlementDate then db
  else
    match s.settlementStatus with
    | "PENDING" =>
      updateSettlementRow db { s with settlementStatus := "SETTLING", updatedAt := now }
    | "SETTLING" =>
      if verify s then
        updateSettlementRow db { s with settlementStatus := "SETTLED", updatedAt := now }
      else updateSettlementRow db { s with updatedAt := now }
    | "FAILED" => db
    | _ => updateSettlementRow db { s with updatedAt := now }

/-- Embeds one tick of `processPendingSettlements`: fetch the PENDING rows,
then run the per-settlement loop, saving each update back by `settlement_id`. -/
def processPendingSettlements (now : Int) (verify : Settlement → Bool)
    (db : List Settlement) : List Settlement :=
  (getPendingSettlements db).foldl (processOne now verify) db

end settlement

/-! ## Order creation with idempotency (internal/trading) -/

namespace trading

/-- Embeds `IdempotencyRecord` (internal/trading/models.go). The key carries a
unique index. -/
structure IdempotencyRecord where
  idempotencyKey : String
  resourceID : String
  resourceType : String
  expiresAt : Int
  deriving Repr, DecidableEq

/-- The trading tables `CreateOrder` touches. -/
structure TradingDB where
  orders : List types.Order
  idempotencyRecords : List IdempotencyRecord
  deriving Repr, DecidableEq

/-- Embeds `GetIdempotencyRecord`: `First` by key; a missing key is mapped to
a zero-valued record with a nil error (the `gorm.ErrRecordNotFound` branch
returns the untouched zero record). -/
def getIdempotencyRecord (db : TradingDB) (key : String) : IdempotencyRecord :=
  (db.idempotencyRecords.find? (fun r => r.idempotencyKey == key)).getD
    { idempotencyKey := "", resourceID := "", resourceType := "", expiresAt := 0 }

/-- Embeds trading's `GetOrder`: `First` by `order_id`, not-found mapped to
`(nil, nil)`, i.e. `none`. -/
def getOrder (db : TradingDB) (orderID : String) : Option types.Order :=
  db.orders.find? (fun o => o.orderID == orderID)

/-- Embeds `CreateOrderWithIdempotency`: a transaction that inserts the order
row and the idempotency record; either unique-index violation (order_id, or
idempotency_key already present) rolls the whole transaction back, returning
the error with the store unchanged. -/
def createOrderWithIdempotency (now : Int) (db : TradingDB) (order : types.Order)
    (key : String) : Except String Unit × TradingDB :=
  if db.orders.any (fun o => o.orderID == order.orderID) then
    (.error "UNIQUE constraint failed: orders.order_id", db)
  else
    let tx1 := { db with orders := db.orders ++ [order] }
    if tx1.idempotencyRecords.any (fun r => r.idempotencyKey == key) then
      (.error "UNIQUE constraint failed: idempotency_records.idempotency_key", db)
    else
      (.ok (),
       { tx1 with idempotencyRecords := tx1.idempotencyRecords ++
           [{ idempotencyKey := key, resourceID := order.orderID,
              resourceType := "order", expiresAt := now + 24 * clearing.hour }] })

/-- Embeds `Service.CreateOrder` (internal/trading/trading.go): look up the
idempotency record; when it has not expired (`ExpiresAt.After(now)`), return
the stored order (error when that order is missing); otherwise stamp the
incoming order with a fresh ID (`newID` stands for `uuid.New()`), status
PENDING and the current time, and insert it together with a new idempotency
record in one transaction. -/
def createOrder (now : Int) (newID : String) (order : types.Order) (key : String)
    (db : TradingDB) : Except String types.Order × TradingDB :=
  let record := getIdempotencyRecord db key
  if now < record.expiresAt then
    match getOrder db record.resourceID with
    | some existingOrder => (.ok existingOrder, db)
    | none => (.error "order not found", db)
  else
    let order' := { order with
      orderID := newID, status := "PENDING", createdAt := now }
    match createOrderWithIdempotency now db order' key with
    | (.error e, db') => (.error e, db')
    | (.ok _, db') => (.ok order', db')

end trading

/-! ## Spec-side characterizations -/

namespace clearing

/-- The side-signed quantity an execution contributes to a netting (spec §4.3):
`+quantity` when the parent order's side is BUY, `-quantity` otherwise. -/
def signedQuantity (db : ClearingDB) (e : types.Execution) : ℚ :=
  match findOrder db e.orderID with
  | some o => if o.side = "BUY" then e.totalQuantity else -e.totalQuantity
  | none => 0

/-- The side-signed amount (`quantity * price`) an execution contributes. -/
def signedAmount (db : ClearingDB) (e : types.Execution) : ℚ :=
  match findOrder db e.orderID with
  | some o =>
    if o.side = "BUY" then e.totalQuantity * e.averagePrice
    else -(e.totalQuantity * e.averagePrice)
  | none => 0

end clearing

/-! ## Concrete fixtures used by the per-claim witnesses and counterexamples -/

/-- C1 fixture: a settlement stuck in SETTLING whose scheduled date passed. -/
def c1Settling : settlement.Settlement :=
  { settlementID := "S1", tradeID := "T1", clientID := "CL1",
    settlementStatus := "SETTLING", settlementDate := 0, finalAmount := 1000,
    updatedAt := 0 }

/-- C2 fixture: a BUY order whose execution is in the netting window. -/
def c2Order : types.Order :=
  { orderID := "O1", clientID := "CL1", symbol := "AAPL", side := "BUY",
    orderType := "LIMIT", quantity := 10, price := 100, status := "FILLED",
    createdAt := 90000 }

/-- C2 fixture: an execution with status FAILED (not COMPLETED) inside the
trailing window. -/
def c2Exec : types.Execution :=
  { executionID := "E1", orderID := "O1", totalQuantity := 10, averagePrice := 100,
    side := "BUY", status := "FAILED", fills := [], createdAt := 90000 }

/-- C2 fixture: the clearing database holding only the FAILED execution. -/
def c2Db : clearing.ClearingDB := { executions := [c2Exec], orders := [c2Order] }

/-- C3 fixture: BUY 60 @ 50 (net settlement 3000, |net quantity| 60). -/
def c3Order : types.Order :=
  { orderID := "O1", clientID := "CL1", symbol := "AAPL", side := "BUY",
    orderType := "LIMIT", quantity := 60, price := 50, status := "FILLED",
    createdAt := 90000 }

/-- C3 fixture: the matching COMPLETED execution. -/
def c3Exec : types.Execution :=
  { executionID := "E1", orderID := "O1", totalQuantity := 60, averagePrice := 50,
    side := "BUY", status := "COMPLETED", fills := [], createdAt := 90000 }

/-- C3 fixture: database for the |net quantity| ≤ 1000 case. -/
def c3Db : clearing.ClearingDB := { executions := [c3Exec], orders := [c3Order] }

/-- C3 fixture: BUY 1500 @ 2 (net settlement 3000, |net quantity| 1500). -/
def c3bOrder : types.Order :=
  { orderID := "O2", clientID := "CL1", symbol := "MSFT", side := "BUY",
    orderType := "LIMIT", quantity := 1500, price := 2, status := "FILLED",
    createdAt := 90000 }

/-- C3 fixture: the matching COMPLETED execution for the concentrated case. -/
def c3bExec : types.Execution :=
  { executionID := "E2", orderID := "O2", totalQuantity := 1500, averagePrice := 2,
    side := "BUY", status := "COMPLETED", fills := [], createdAt := 90000 }

/-- C3 fixture: database for the |net quantity| > 1000 case. -/
def c3bDb : clearing.ClearingDB := { executions := [c3bExec], orders := [c3bOrder] }

/-- C4 fixture: a BUY order of quantity 10 at price 100. -/
def c4Order : types.Order :=
  { orderID := "O4", clientID := "CL1", symbol := "AAPL", side := "BUY",
    orderType := "LIMIT", quantity := 10, price := 100, status := "PENDING",
    createdAt := 0 }

/-- C4 fixture: draws for one fully-successful attempt (venue EXCH1, success
draw under its success rate, no liquidity shrink). -/
def c4Rands : List exchange.RandDraws :=
  [{ venueChoice := 0, successDraw := 0, priceDraw := 1/2, liquidityDraw := 0 }]

/-- C5 fixture: a risk environment inside market hours with empty daily
aggregates. -/
def c5Env : clearing.RiskEnv :=
  { dailyNetPosition := 0, dailyTradingVolume := 0, nowMinutes := 600 }

/-- C5 fixture: an order for the validator. -/
def c5Order : types.Order :=
  { orderID := "O5", clientID := "CL1", symbol := "AAPL", side := "BUY",
    orderType := "LIMIT", quantity := 60, price := 50, status := "FILLED",
    createdAt := 90000 }

/-- C5 fixture: a clearing with settlement amount 500000.01. -/
def c5Clearing : clearing.Clearing :=
  { clearingID := "CLR5", tradeID := "E5", clearingStatus := "PENDING",
    marginRequired := 360, netPositions := 60, settlementAmount := 500000.01 }

/-- C6 fixture: an order whose execution clears 600000 of settlement value. -/
def c6Order : types.Order :=
  { orderID := "O6", clientID := "CL1", symbol := "AAPL", side := "BUY",
    orderType := "LIMIT", quantity := 2000, price := 300, status := "FILLED",
    createdAt := 90000 }

/-- C6 fixture: a COMPLETED execution of 2000 @ 300 (settlement 600000, above
the 500000 position limit). -/
def c6Exec : types.Execution :=
  { executionID := "E6", orderID := "O6", totalQuantity := 2000, averagePrice := 300,
    side := "BUY", status := "COMPLETED", fills := [], createdAt := 90000 }

/-- C6 fixture: the clearing database for the witness. -/
def c6Db : clearing.ClearingDB := { executions := [c6Exec], orders := [c6Order] }

/-- C6 fixture: risk environment inside market hours, empty aggregates. -/
def c6Env : clearing.RiskEnv :=
  { dailyNetPosition := 0, dailyTradingVolume := 0, nowMinutes := 600 }

/-- C6 fixture: a store-failure oracle where every write succeeds. -/
def c6Txo : clearing.TxOutcome :=
  { createNettingFails := false, saveClearingFails := false, commitFails := false }

/-- C6 witness fixture: the netting computed from `c6Db` (settlement 600000,
margin 82800 after the concentration multiplier). -/
def c6Netting : clearing.TradeNetting :=
  { nettingID := "NET", symbol := "AAPL", windowStart := 13600, windowEnd := 100000,
    netQuantity := 2000, netAmount := 600000, netSettlement := 600000,
    netMargin := 82800, status := "COMPLETED", originalTrades := ["E6"] }

/-- C8 fixture: a FAILED settlement with a past-due date. -/
def c8Failed : settlement.Settlement :=
  { settlementID := "S8", tradeID := "T8", clientID := "CL1",
    settlementStatus := "FAILED", settlementDate := 0, finalAmount := 500,
    updatedAt := 0 }

/-- C9 fixture: a BUY order of quantity 7 at price 40. -/
def c9Order : types.Order :=
  { orderID := "O9", clientID := "CL1", symbol := "AAPL", side := "BUY",
    orderType := "LIMIT", quantity := 7, price := 40, status := "PENDING",
    createdAt := 0 }

/-- C9 fixture: draws where the only attempt shrinks the fill by the venue's
liquidity factor. -/
def c9Rands : List exchange.RandDraws :=
  [{ venueChoice := 0, successDraw := 0, priceDraw := 1/2, liquidityDraw := 1 }]

/-- C10 fixture: the previously stored order the expired key points to. -/
def c10StoredOrder : types.Order :=
  { orderID := "OLD", clientID := "CL1", symbol := "AAPL", side := "BUY",
    orderType := "LIMIT", quantity := 5, price := 10, status := "PENDING",
    createdAt := 0 }

/-- C10 fixture: an idempotency record that expired at time 50. -/
def c10Record : trading.IdempotencyRecord :=
  { idempotencyKey := "KEY", resourceID := "OLD", resourceType := "order",
    expiresAt := 50 }

/-- C10 fixture: the trading database holding the expired record. -/
def c10Db : trading.TradingDB :=
  { orders := [c10StoredOrder], idempotencyRecords := [c10Record] }

/-- C10 fixture: the incoming order of the replayed request. -/
def c10NewOrder : types.Order :=
  { orderID := "", clientID := "CL1", symbol := "AAPL", side := "BUY",
    orderType := "LIMIT", quantity := 5, price := 10, status := "",
    createdAt := 0 }

/-- C2 witness fixture: the netting computed from `c2Db` — it aggregates the
FAILED execution. -/
def c2Netting : clearing.TradeNetting :=
  { nettingID := "NET", symbol := "AAPL", windowStart := 13600, windowEnd := 100000,
    netQuantity := 10, netAmount := 1000, netSettlement := 1000, netMargin := 120,
    status := "COMPLETED", originalTrades := ["E1"] }

/-- C3 witness fixture: the netting computed from `c3Db` (margin 360). -/
def c3Netting : clearing.TradeNetting :=
  { nettingID := "NET", symbol := "AAPL", windowStart := 13600, windowEnd := 100000,
    netQuantity := 60, netAmount := 3000, netSettlement := 3000, netMargin := 360,
    status := "COMPLETED", originalTrades := ["E1"] }

/-- C3 witness fixture: the netting computed from `c3bDb` (margin 414). -/
def c3bNetting : clearing.TradeNetting :=
  { nettingID := "NET", symbol := "MSFT", windowStart := 13600, windowEnd := 100000,
    netQuantity := 1500, netAmount := 3000, netSettlement := 3000, netMargin := 414,
    status := "COMPLETED", originalTrades := ["E2"] }

/-- C4 witness fixture: the execution produced by routing `c4Order` with
`c4Rands` (one full fill of 10 @ 100 on EXCH1). -/
def c4Exec : types.Execution :=
  { executionID := "EXEC", orderID := "O4", totalQuantity := 10, averagePrice := 100,
    side := "BUY", status := "COMPLETED",
    fills := [{ exchangeID := "EXCH1", exchangeName := "Primary Exchange",
                price := 100, quantity := 10, feeRate := 0.001, feeAmount := 1 }],
    createdAt := 0 }

/-- C9 witness fixture: the execution produced by routing `c9Order` with
`c9Rands` (one liquidity-shrunk fill of 6.3 @ 40 on EXCH1). -/
def c9Exec : types.Execution :=
  { executionID := "EXEC", orderID := "O9", totalQuantity := 6.3, averagePrice := 40,
    side := "BUY", status := "COMPLETED",
    fills := [{ exchangeID := "EXCH1", exchangeName := "Primary Exchange",
                price := 40, quantity := 6.3, feeRate := 0.001, feeAmount := 0.252 }],
    createdAt := 0 }

/-! # Theorems -/

/-- C1 (code-bug evidence): a settlement in status SETTLING whose scheduled
date (0) has long passed is left completely untouched by a processing tick at
time 100, even when the simulated verification always succeeds. The scan
(`GetPendingSettlements`) fetches only rows with status PENDING, so the
processor's SETTLING branch is unreachable and the settlement can never
transition to SETTLED. -/
theorem settling_settlement_never_rescanned :
    settlement.processPendingSettlements 100 (fun _ => true) [c1Settling] = [c1Settling] ∧
    c1Settling.settlementStatus = "SETTLING" ∧ c1Settling.settlementDate ≤ 100 :=
  ⟨rfl, rfl, by decide⟩

/-- C3: for every netting the computation completes, the stored margin equals
`netSettlement * 0.10 * 1.20` when `|netQuantity| ≤ 1000` and
`netSettlement * 0.10 * 1.20 * 1.15` when `|netQuantity| > 1000`. -/
theorem margin_compounding (db : clearing.ClearingDB) (order : types.Order)
    (now : Int) (n : clearing.TradeNetting)
    (h : clearing.calculateTradeNetting db order now = .ok n) :
    (|n.netQuantity| ≤ 1000 → n.netMargin = n.netSettlement * 0.10 * 1.20) ∧
    (1000 < |n.netQuantity| → n.netMargin = n.netSettlement * 0.10 * 1.20 * 1.15) := by
  simp only [clearing.calculateTradeNetting] at h
  split at h
  · simp at h
  · rename_i ids q a
    rw [Except.ok.injEq] at h
    subst h
    constructor
    · intro hq
      dsimp only at hq ⊢
      rw [if_neg (not_lt.mpr hq)]
      norm_num [clearing.baseMarginRate, clearing.marketVolatilityMultiplier]
    · intro hq
      dsimp only at hq ⊢
      rw [if_pos hq]
      norm_num [clearing.baseMarginRate, clearing.marketVolatilityMultiplier,
        clearing.concentrationMultiplier]

/-- C3 witness: on the concrete databases, the nettings carry net settlement
3000 with |net quantity| 60 resp. 1500, and the theorem yields margins
`3000 * 0.10 * 1.20 = 360` and `3000 * 0.10 * 1.20 * 1.15 = 414`. -/
theorem margin_compounding_witness :
    (|c3Netting.netQuantity| ≤ 1000 ∧
      c3Netting.netMargin = c3Netting.netSettlement * 0.10 * 1.20 ∧
      c3Netting.netMargin = 360) ∧
    (1000 < |c3bNetting.netQuantity| ∧
      c3bNetting.netMargin = c3bNetting.netSettlement * 0.10 * 1.20 * 1.15 ∧
      c3bNetting.netMargin = 414) :=
  ⟨⟨by norm_num [c3Netting],
    (margin_compounding c3Db c3Order 100000 c3Netting (by
      norm_num [clearing.calculateTradeNetting, clearing.getTradesForNetting,
        clearing.netTrades, clearing.findOrder, c3Db, c3Order, c3Exec, c3Netting,
        clearing.hour, clearing.second, clearing.baseMarginRate,
        clearing.marketVolatilityMultiplier, clearing.concentrationMultiplier,
        List.filter, List.find?])).1 (by norm_num [c3Netting]),
    by norm_num [c3Netting]⟩,
   ⟨by norm_num [c3bNetting],
    (margin_compounding c3bDb c3bOrder 100000 c3bNetting (by
      norm_num [clearing.calculateTradeNetting, clearing.getTradesForNetting,
        clearing.netTrades, clearing.findOrder, c3bDb, c3bOrder, c3bExec, c3bNetting,
        clearing.hour, clearing.second, clearing.baseMarginRate,
        clearing.marketVolatilityMultiplier, clearing.concentrationMultiplier,
        List.filter, List.find?])).2 (by norm_num [c3bNetting]),
    by norm_num [c3bNetting]⟩⟩

/-- C2 counterexample: in `c2Db` the only execution has status FAILED (not
COMPLETED), yet the netting triggered by its BUY order aggregates it — the
net quantity is 10 (not 0) and the execution's ID appears among the original
trades. `GetTradesForNetting` filters on symbol and window only, never on
execution status, so the claim as stated is false. -/
theorem netting_includes_failed_execution :
    (∀ e ∈ c2Db.executions, e.status ≠ "COMPLETED") ∧
    (clearing.calculateTradeNetting c2Db c2Order 100000).toOption.map
      (fun n => (n.netQuantity, n.originalTrades)) = some (10, ["E1"]) := by
  constructor
  · decide
  · norm_num [clearing.calculateTradeNetting, clearing.getTradesForNetting,
      clearing.netTrades, clearing.findOrder, c2Db, c2Order, c2Exec,
      clearing.hour, clearing.second, clearing.baseMarginRate,
      clearing.marketVolatilityMultiplier, clearing.concentrationMultiplier,
      List.filter, List.find?, Except.toOption]

/-- Unfolding of the netting fold: a successful `netTrades` run appends the
processed executions' IDs in order and adds their side-signed quantities and
amounts to the accumulators. -/
theorem netTrades_ok (db : clearing.ClearingDB) :
    ∀ (l : List types.Execution) (ids : List String) (q a : ℚ)
      (ids' : List String) (q' a' : ℚ),
      clearing.netTrades db l (ids, q, a) = .ok (ids', q', a') →
      ids' = ids ++ l.map types.Execution.executionID ∧
      q' = q + (l.map (clearing.signedQuantity db)).sum ∧
      a' = a + (l.map (clearing.signedAmount db)).sum := by
  intro l
  induction l with
  | nil =>
    intro ids q a ids' q' a' h
    simp only [clearing.netTrades, Except.ok.injEq, Prod.mk.injEq] at h
    obtain ⟨h1, h2, h3⟩ := h
    simp [h1, h2, h3]
  | cons e rest ih =>
    intro ids q a ids' q' a' h
    simp only [clearing.netTrades] at h
    cases hf : clearing.findOrder db e.orderID with
    | none => rw [hf] at h; simp at h
    | some o =>
      rw [hf] at h
      dsimp only at h
      by_cases hside : o.side = "BUY"
      · rw [if_pos hside] at h
        obtain ⟨h1, h2, h3⟩ := ih _ _ _ _ _ _ h
        refine ⟨?_, ?_, ?_⟩
        · rw [h1]; simp
        · rw [h2]
          simp only [List.map_cons, List.sum_cons, clearing.signedQuantity, hf,
            if_pos hside]
          ring
        · rw [h3]
          simp only [List.map_cons, List.sum_cons, clearing.signedAmount, hf,
            if_pos hside]
          ring
      · rw [if_neg hside] at h
        obtain ⟨h1, h2, h3⟩ := ih _ _ _ _ _ _ h
        refine ⟨?_, ?_, ?_⟩
        · rw [h1]; simp
        · rw [h2]
          simp only [List.map_cons, List.sum_cons, clearing.signedQuantity, hf,
            if_neg hside]
          ring
        · rw [h3]
          simp only [List.map_cons, List.sum_cons, clearing.signedAmount, hf,
            if_neg hside]
          ring

/-- C2 (amended): for every successful netting, the aggregated execution set
is exactly the executions whose parent order resolves and shares the
triggering order's symbol and whose creation time is strictly inside the
trailing 24-hour window — irrespective of execution status — and the net
quantity and net amount are the side-signed sums over exactly that set. -/
theorem netting_window_membership (db : clearing.ClearingDB) (order : types.Order)
    (now : Int) (n : clearing.TradeNetting)
    (hids : (db.executions.map types.Execution.executionID).Nodup)
    (h : clearing.calculateTradeNetting db order now = .ok n) :
    (∀ e ∈ db.executions,
      (e.executionID ∈ n.originalTrades ↔
        ∃ o, clearing.findOrder db e.orderID = some o ∧ o.symbol = order.symbol ∧
          now - 24 * clearing.hour < e.createdAt)) ∧
    n.netQuantity =
      ((clearing.getTradesForNetting db order.symbol (now - 24 * clearing.hour)).map
        (clearing.signedQuantity db)).sum ∧
    n.netAmount =
      ((clearing.getTradesForNetting db order.symbol (now - 24 * clearing.hour)).map
        (clearing.signedAmount db)).sum := by
  simp only [clearing.calculateTradeNetting] at h
  split at h
  · simp at h
  · rename_i ids q a heq
    rw [Except.ok.injEq] at h
    subst h
    obtain ⟨hids', hq, ha⟩ := netTrades_ok db _ [] 0 0 ids q a heq
    simp only [List.nil_append, zero_add] at hids' hq ha
    dsimp only
    refine ⟨?_, hq, ha⟩
    intro e he
    rw [hids']
    constructor
    · intro hmem
      obtain ⟨e', he'f, he'id⟩ := List.mem_map.mp hmem
      have he'mem : e' ∈ db.executions :=
        List.mem_of_mem_filter he'f
      have : e' = e := List.inj_on_of_nodup_map hids he'mem he he'id
      subst this
      have hpred := List.of_mem_filter he'f
      revert hpred
      cases hf : clearing.findOrder db e'.orderID with
      | none => simp
      | some o =>
        intro hpred
        simp only [Bool.and_eq_true, beq_iff_eq, decide_eq_true_eq] at hpred
        exact ⟨o, rfl, hpred.1, hpred.2⟩
    · rintro ⟨o, ho, hsym, hlt⟩
      refine List.mem_map.mpr ⟨e, List.mem_filter.mpr ⟨he, ?_⟩, rfl⟩
      rw [ho]
      simp [hsym, hlt]

/-- C2 (amended) witness: on the concrete database whose only (FAILED)
execution lies in the window, the computed net quantity equals the signed sum
over the window's trades. -/
theorem netting_window_membership_witness :
    c2Netting.netQuantity =
      ((clearing.getTradesForNetting c2Db c2Order.symbol
          (100000 - 24 * clearing.hour)).map (clearing.signedQuantity c2Db)).sum :=
  (netting_window_membership c2Db c2Order 100000 c2Netting (by decide) (by
    norm_num [clearing.calculateTradeNetting, clearing.getTradesForNetting,
      clearing.netTrades, clearing.findOrder, c2Db, c2Order, c2Exec, c2Netting,
      clearing.hour, clearing.second, clearing.baseMarginRate,
      clearing.marketVolatilityMultiplier, clearing.concentrationMultiplier,
      List.filter, List.find?])).2.1

/-- Loop invariant of the router: the running executed quantity and weighted
price are the sums over the accumulated fills, and each iteration appends at
most one fill (and never drops one). -/
theorem routeAttempts_sums (orderPrice : ℚ) :
    ∀ (rands : List exchange.RandDraws) (st : exchange.RouteState),
      st.totalExecutedQty = (st.fills.map types.ExchangeFill.quantity).sum →
      st.weightedPrice = (st.fills.map (fun f => f.price * f.quantity)).sum →
      (exchange.routeAttempts orderPrice rands st).totalExecutedQty =
        ((exchange.routeAttempts orderPrice rands st).fills.map
          types.ExchangeFill.quantity).sum ∧
      (exchange.routeAttempts orderPrice rands st).weightedPrice =
        ((exchange.routeAttempts orderPrice rands st).fills.map
          (fun f => f.price * f.quantity)).sum ∧
      (exchange.routeAttempts orderPrice rands st).fills.length ≤
        st.fills.length + rands.length ∧
      st.fills.length ≤ (exchange.routeAttempts orderPrice rands st).fills.length := by
  intro rands
  induction rands with
  | nil =>
    intro st h1 h2
    simp only [exchange.routeAttempts, List.length_nil, Nat.add_zero]
    exact ⟨h1, h2, le_refl _, le_refl _⟩
  | cons r rs ih =>
    intro st h1 h2
    have hlen : (r :: rs).length = rs.length + 1 := rfl
    simp only [exchange.routeAttempts]
    by_cases hrem : st.remainingQty ≤ 0
    · rw [if_pos hrem]
      exact ⟨h1, h2, Nat.le_add_right _ _, le_refl _⟩
    · rw [if_neg hrem]
      cases hexec : exchange.executeOrder (exchange.getBestExchange r.venueChoice)
          st.remainingQty orderPrice r with
      | none =>
        dsimp only
        obtain ⟨g1, g2, g3, g4⟩ := ih st h1 h2
        exact ⟨g1, g2, by omega, g4⟩
      | some f =>
        dsimp only
        obtain ⟨g1, g2, g3, g4⟩ := ih
          { fills := st.fills ++ [f],
            totalExecutedQty := st.totalExecutedQty + f.quantity,
            weightedPrice := st.weightedPrice + f.price * f.quantity,
            remainingQty := st.remainingQty - f.quantity }
          (by rw [h1]; simp)
          (by rw [h2]; simp)
        dsimp only at g3 g4
        simp only [List.length_append, List.length_cons, List.length_nil] at g3 g4
        exact ⟨g1, g2, by omega, by omega⟩

/-- C4: every execution the router returns satisfies the aggregation
invariants: its total quantity is the sum of its fills' quantities, its
average price is the quantity-weighted sum of fill prices divided by the
total quantity, and it carries between 1 and 3 fills. -/
theorem execution_aggregation (order : types.Order)
    (rands : List exchange.RandDraws) (ex : types.Execution)
    (h : exchange.executeOrderAcrossExchanges order rands = some ex) :
    ex.totalQuantity = (ex.fills.map types.ExchangeFill.quantity).sum ∧
    ex.averagePrice =
      (ex.fills.map (fun f => f.price * f.quantity)).sum / ex.totalQuantity ∧
    1 ≤ ex.fills.length ∧ ex.fills.length ≤ 3 := by
  simp only [exchange.executeOrderAcrossExchanges] at h
  split at h
  · simp at h
  · rename_i hne
    rw [Option.some.injEq] at h
    subst h
    obtain ⟨g1, g2, g3, g4⟩ := routeAttempts_sums order.price (rands.take 3)
      { fills := [], totalExecutedQty := 0, weightedPrice := 0,
        remainingQty := order.quantity } (by simp) (by simp)
    dsimp only
    dsimp only at g3 g4
    simp only [List.length_nil, Nat.zero_add] at g3 g4
    refine ⟨g1, by rw [g2], ?_, ?_⟩
    · have := List.length_pos.mpr hne
      omega
    · have htake : (rands.take 3).length ≤ 3 := by
        rw [List.length_take]
        exact min_le_left _ _
      omega

/-- C4 witness: routing the concrete order of quantity 10 at price 100 with
one fully-successful draw yields an execution satisfying the invariants. -/
theorem execution_aggregation_witness :
    c4Exec.totalQuantity = (c4Exec.fills.map types.ExchangeFill.quantity).sum ∧
    c4Exec.averagePrice =
      (c4Exec.fills.map (fun f => f.price * f.quantity)).sum / c4Exec.totalQuantity ∧
    1 ≤ c4Exec.fills.length ∧ c4Exec.fills.length ≤ 3 :=
  execution_aggregation c4Order c4Rands c4Exec (by
    norm_num [exchange.executeOrderAcrossExchanges, exchange.routeAttempts,
      exchange.executeOrder, exchange.getBestExchange, exchange.selectByWeight,
      exchange.totalWeight, exchange.exchangeWeight, exchange.mockExchanges,
      exchange.primaryExchange, c4Order, c4Rands, c4Exec, List.take])

/-- The cumulative-weight scan only ever returns a member of the list it
scans. -/
theorem selectByWeight_mem :
    ∀ (l : List exchange.Exchange) (choice cum : ℚ) (e : exchange.Exchange),
      exchange.selectByWeight choice cum l = some e → e ∈ l := by
  intro l
  induction l with
  | nil => intro choice cum e h; simp [exchange.selectByWeight] at h
  | cons x xs ih =>
    intro choice cum e h
    simp only [exchange.selectByWeight] at h
    by_cases hc : choice ≤ cum + exchange.exchangeWeight x
    · rw [if_pos hc, Option.some.injEq] at h
      subst h
      exact List.mem_cons_self x xs
    · rw [if_neg hc] at h
      exact List.mem_cons_of_mem x (ih _ _ _ h)

/-- `GetBestExchange` always returns a venue of the registry (the scan result
or the first-registered fallback). -/
theorem getBestExchange_mem (u : ℚ) :
    exchange.getBestExchange u ∈ exchange.mockExchanges := by
  unfold exchange.getBestExchange
  cases hsel : exchange.selectByWeight (u * exchange.totalWeight) 0
      exchange.mockExchanges with
  | none =>
    rw [Option.getD_none]
    exact List.mem_cons_self _ _
  | some e =>
    rw [Option.getD_some]
    exact selectByWeight_mem _ _ _ _ hsel

/-- A fill produced by one venue attempt carries a strictly positive quantity
whenever the requested quantity and the venue's liquidity factor are strictly
positive. -/
theorem executeOrder_quantity_pos (e : exchange.Exchange) (qty price : ℚ)
    (r : exchange.RandDraws) (f : types.ExchangeFill)
    (hq : 0 < qty) (hlf : 0 < e.liquidityFactor)
    (h : exchange.executeOrder e qty price r = some f) : 0 < f.quantity := by
  unfold exchange.executeOrder at h
  dsimp only at h
  split_ifs at h with h1 h2 h3
  · rw [Option.some.injEq] at h
    subst h
    exact mul_pos hq hlf
  · rw [Option.some.injEq] at h
    subst h
    exact hq

/-- Loop invariant of the router: the running executed quantity stays
nonnegative and is strictly positive as soon as one fill has been collected
(every fill is emitted with `remainingQty > 0` thanks to the loop guard). -/
theorem routeAttempts_pos (orderPrice : ℚ)
    (hlf : ∀ e ∈ exchange.mockExchanges, 0 < e.liquidityFactor) :
    ∀ (rands : List exchange.RandDraws) (st : exchange.RouteState),
      0 ≤ st.totalExecutedQty →
      (st.fills ≠ [] → 0 < st.totalExecutedQty) →
      0 ≤ (exchange.routeAttempts orderPrice rands st).totalExecutedQty ∧
      ((exchange.routeAttempts orderPrice rands st).fills ≠ [] →
        0 < (exchange.routeAttempts orderPrice rands st).totalExecutedQty) := by
  intro rands
  induction rands with
  | nil =>
    intro st h1 h2
    simp only [exchange.routeAttempts]
    exact ⟨h1, h2⟩
  | cons r rs ih =>
    intro st h1 h2
    simp only [exchange.routeAttempts]
    by_cases hrem : st.remainingQty ≤ 0
    · rw [if_pos hrem]
      exact ⟨h1, h2⟩
    · rw [if_neg hrem]
      cases hexec : exchange.executeOrder (exchange.getBestExchange r.venueChoice)
          st.remainingQty orderPrice r with
      | none =>
        dsimp only
        exact ih st h1 h2
      | some f =>
        dsimp only
        have hfq : 0 < f.quantity :=
          executeOrder_quantity_pos _ _ _ _ _ (not_le.mp hrem)
            (hlf _ (getBestExchange_mem r.venueChoice)) hexec
        have hpos : 0 < st.totalExecutedQty + f.quantity :=
          add_pos_of_nonneg_of_pos h1 hfq
        exact ih _ hpos.le (fun _ => hpos)

/-- C9: given a positive order quantity and positive liquidity factors across
the registry, every execution the router returns has a strictly positive
total executed quantity — the divisor of the average-price computation on the
only path past the fills-empty check is never zero. -/
theorem routing_divisor_positive (order : types.Order)
    (rands : List exchange.RandDraws) (ex : types.Execution)
    (_hq : 0 < order.quantity)
    (hlf : ∀ e ∈ exchange.mockExchanges, 0 < e.liquidityFactor)
    (h : exchange.executeOrderAcrossExchanges order rands = some ex) :
    0 < ex.totalQuantity := by
  simp only [exchange.executeOrderAcrossExchanges] at h
  split at h
  · simp at h
  · rename_i hne
    rw [Option.some.injEq] at h
    subst h
    obtain ⟨-, g2⟩ := routeAttempts_pos order.price hlf (rands.take 3)
      { fills := [], totalExecutedQty := 0, weightedPrice := 0,
        remainingQty := order.quantity } (le_refl 0) (fun hc => absurd rfl hc)
    exact g2 hne

/-- C9 witness: routing the concrete order of quantity 7 with a
liquidity-shrunk fill yields total executed quantity 6.3 > 0. -/
theorem routing_divisor_positive_witness : 0 < c9Exec.totalQuantity :=
  routing_divisor_positive c9Order c9Rands c9Exec (by norm_num [c9Order])
    (by norm_num [exchange.mockExchanges, exchange.primaryExchange]) (by
    norm_num [exchange.executeOrderAcrossExchanges, exchange.routeAttempts,
      exchange.executeOrder, exchange.getBestExchange, exchange.selectByWeight,
      exchange.totalWeight, exchange.exchangeWeight, exchange.mockExchanges,
      exchange.primaryExchange, c9Order, c9Rands, c9Exec, List.take])

/-- C5: the clearing validator's settlement-amount gate accepts a settlement
amount of exactly 500000 (neither settlement-amount error can be returned),
rejects 500000.01 with the position-limit error, and rejects any amount ≤ 0
as invalid. -/
theorem settlement_amount_gate_boundaries (env : clearing.RiskEnv)
    (c : clearing.Clearing) (order : types.Order) :
    (c.settlementAmount = 500000 →
      clearing.validateClearing env c order ≠ .error .invalidSettlementAmount ∧
      clearing.validateClearing env c order ≠ .error .settlementExceedsPositionLimit) ∧
    (c.settlementAmount = 500000.01 →
      clearing.validateClearing env c order = .error .settlementExceedsPositionLimit) ∧
    (c.settlementAmount ≤ 0 →
      clearing.validateClearing env c order = .error .invalidSettlementAmount) := by
  refine ⟨fun h => ?_, fun h => ?_, fun h => ?_⟩
  · unfold clearing.validateClearing
    rw [h]
    norm_num [clearing.positionLimit]
    split_ifs <;> simp
  · unfold clearing.validateClearing
    rw [h]
    norm_num [clearing.positionLimit]
  · unfold clearing.validateClearing
    rw [if_pos h]

/-- C5 witness: the validator rejects the concrete clearing whose settlement
amount is 500000.01 with the position-limit error. -/
theorem settlement_amount_gate_boundaries_witness :
    clearing.validateClearing c5Env c5Clearing c5Order =
      .error .settlementExceedsPositionLimit :=
  (settlement_amount_gate_boundaries c5Env c5Clearing c5Order).2.1 rfl

/-- C6: (a) the monolithic validator is exactly the short-circuit evaluation
of the ordered gate chain — settlement amount, margin, daily net position,
daily volume, market hours, risk score — so the first failing gate determines
the returned error; and (b) whenever validation fails during `ClearTrade`,
the clearing record (carrying the recomputed settlement amount and net
position) is persisted with status FAILED and the gate error surfaces to the
caller unchanged — `ClearTrade` evaluates the validator exactly once, so no
automatic retry occurs. -/
theorem gate_order_and_failed_persistence :
    (∀ (env : clearing.RiskEnv) (c : clearing.Clearing) (o : types.Order),
      clearing.validateClearing env c o =
        match clearing.firstGateFailure env c o clearing.clearingGates with
        | some e => .error e
        | none => .ok ()) ∧
    (∀ (newID : String) (now : Int) (env : clearing.RiskEnv)
      (txo : clearing.TxOutcome) (db : clearing.ClearingDB)
      (store : clearing.ClearingStore) (tradeID : String)
      (execution : types.Execution) (order : types.Order)
      (n : clearing.TradeNetting) (e : clearing.GateError),
      clearing.getExecutionByID db tradeID = some execution →
      clearing.findOrder db execution.orderID = some order →
      clearing.calculateTradeNetting db order now = .ok n →
      (clearing.processClearingCalculations env
        { clearingID := newID, tradeID := tradeID, clearingStatus := "PENDING",
          marginRequired := n.netMargin, netPositions := n.netQuantity,
          settlementAmount := n.netSettlement } execution order).2 = .error e →
      clearing.clearTrade newID now env txo db store tradeID =
        (.error (.validationFailed e),
         { store with clearings := store.clearings ++
             [{ (clearing.processClearingCalculations env
                  { clearingID := newID, tradeID := tradeID,
                    clearingStatus := "PENDING", marginRequired := n.netMargin,
                    netPositions := n.netQuantity,
                    settlementAmount := n.netSettlement } execution order).1
                with clearingStatus := "FAILED" }] })) := by
  constructor
  · intro env c o
    simp only [clearing.validateClearing, clearing.clearingGates,
      clearing.firstGateFailure, clearing.settlementAmountGate, clearing.marginGate,
      clearing.netPositionGate, clearing.volumeGate, clearing.marketHoursGate,
      clearing.riskScoreGate]
    split_ifs <;> rfl
  · intro newID now env txo db store tradeID execution order n e h1 h2 h3 h4
    unfold clearing.clearTrade
    rw [h1]
    dsimp only
    rw [h2]
    dsimp only
    rw [h3]
    dsimp only
    cases hp : clearing.processClearingCalculations env
        { clearingID := newID, tradeID := tradeID, clearingStatus := "PENDING",
          marginRequired := n.netMargin, netPositions := n.netQuantity,
          settlementAmount := n.netSettlement } execution order with
    | mk c2 v =>
      rw [hp] at h4
      dsimp only at h4
      subst h4
      rfl

/-- C6 witness: clearing the concrete trade "E6" (settlement 600000 above the
position limit) surfaces the validation failure to the caller, and the store
gains exactly one clearing record, persisted with status FAILED. -/
theorem gate_order_and_failed_persistence_witness :
    (clearing.clearTrade "CLR6" 100000 c6Env c6Txo c6Db
        { clearings := [], nettings := [] } "E6").1 =
      .error (.validationFailed .settlementExceedsPositionLimit) ∧
    ((clearing.clearTrade "CLR6" 100000 c6Env c6Txo c6Db
        { clearings := [], nettings := [] } "E6").2.clearings.map
      clearing.Clearing.clearingStatus) = ["FAILED"] := by
  have heq := gate_order_and_failed_persistence.2 "CLR6" 100000 c6Env c6Txo c6Db
    { clearings := [], nettings := [] } "E6" c6Exec c6Order c6Netting
    .settlementExceedsPositionLimit rfl rfl
    (by norm_num [clearing.calculateTradeNetting, clearing.getTradesForNetting,
      clearing.netTrades, clearing.findOrder, c6Db, c6Order, c6Exec, c6Netting,
      clearing.hour, clearing.second, clearing.baseMarginRate,
      clearing.marketVolatilityMultiplier, clearing.concentrationMultiplier,
      List.filter, List.find?])
    (by norm_num [clearing.processClearingCalculations, clearing.validateClearing,
      c6Env, c6Exec, c6Order, c6Netting, clearing.positionLimit, clearing.hour])
  rw [heq]
  constructor
  · rfl
  · rfl

/-- C7: `SaveNettingResult` is all-or-nothing: for every store-failure
outcome, either it succeeds and the returned store carries both the appended
netting record and the saved clearing row, or it fails and the returned store
is exactly the store it started from. -/
theorem save_netting_result_atomic (txo : clearing.TxOutcome)
    (n : clearing.TradeNetting) (c : clearing.Clearing)
    (store : clearing.ClearingStore) :
    clearing.saveNettingResult txo n c store =
      (.ok (), { clearings := clearing.saveClearingRow store.clearings c,
                 nettings := store.nettings ++ [n] }) ∨
    ∃ msg, clearing.saveNettingResult txo n c store = (.error msg, store) := by
  obtain ⟨cf, sf, mf⟩ := txo
  cases cf <;> cases sf <;> cases mf <;>
    first
      | exact Or.inl rfl
      | exact Or.inr ⟨_, rfl⟩

/-- A save targeting a different settlement ID leaves a uniquely-identified
row untouched and creates no new row carrying that ID. -/
theorem updateSettlementRow_preserves (db : List settlement.Settlement)
    (t s : settlement.Settlement) (hne : t.settlementID ≠ s.settlementID)
    (hall : ∀ r ∈ db, r.settlementID = s.settlementID → r = s) (hmem : s ∈ db) :
    s ∈ settlement.updateSettlementRow db t ∧
    ∀ r ∈ settlement.updateSettlementRow db t,
      r.settlementID = s.settlementID → r = s := by
  have hcond : ¬(s.settlementID == t.settlementID) = true := by
    simp only [beq_iff_eq]
    exact fun hh => hne hh.symm
  constructor
  · exact List.mem_map.mpr ⟨s, hmem, by rw [if_neg hcond]⟩
  · intro r hr hid
    obtain ⟨r0, hr0, hfr⟩ := List.mem_map.mp hr
    by_cases hc0 : (r0.settlementID == t.settlementID) = true
    · rw [if_pos hc0] at hfr
      subst hfr
      exact absurd hid hne
    · rw [if_neg hc0] at hfr
      subst hfr
      exact hall r0 hr0 hid

/-- One loop iteration of the settlement processor cannot disturb a
uniquely-identified row that is skipped (not yet due, or FAILED). -/
theorem processOne_preserves (now : Int) (verify : settlement.Settlement → Bool)
    (s p : settlement.Settlement)
    (hp : p.settlementID = s.settlementID →
      now < p.settlementDate ∨ p.settlementStatus = "FAILED")
    (db : List settlement.Settlement)
    (hall : ∀ r ∈ db, r.settlementID = s.settlementID → r = s) (hmem : s ∈ db) :
    s ∈ settlement.processOne now verify db p ∧
    ∀ r ∈ settlement.processOne now verify db p,
      r.settlementID = s.settlementID → r = s := by
  unfold settlement.processOne
  by_cases htime : now < p.settlementDate
  · rw [if_pos htime]
    exact ⟨hmem, hall⟩
  · rw [if_neg htime]
    have hpid : p.settlementStatus ≠ "FAILED" → p.settlementID ≠ s.settlementID := by
      intro hstat hid
      rcases hp hid with h1 | h2
      · exact htime h1
      · exact hstat h2
    split
    · rename_i hstat
      exact updateSettlementRow_preserves db _ s
        (hpid (by rw [hstat]; decide)) hall hmem
    · rename_i hstat
      by_cases hv : verify p = true
      · rw [if_pos hv]
        exact updateSettlementRow_preserves db _ s
          (hpid (by rw [hstat]; decide)) hall hmem
      · rw [if_neg hv]
        exact updateSettlementRow_preserves db _ s
          (hpid (by rw [hstat]; decide)) hall hmem
    · exact ⟨hmem, hall⟩
    · rename_i hq1 hq2 hstat
      exact updateSettlementRow_preserves db _ s (hpid hstat) hall hmem

/-- Folding the per-settlement step over a batch of skipped-or-foreign
settlements preserves a uniquely-identified row. -/
theorem foldl_processOne_preserves (now : Int)
    (verify : settlement.Settlement → Bool) (s : settlement.Settlement) :
    ∀ (pending db : List settlement.Settlement),
      (∀ p ∈ pending, p.settlementID = s.settlementID →
        now < p.settlementDate ∨ p.settlementStatus = "FAILED") →
      (∀ r ∈ db, r.settlementID = s.settlementID → r = s) → s ∈ db →
      s ∈ pending.foldl (settlement.processOne now verify) db ∧
      ∀ r ∈ pending.foldl (settlement.processOne now verify) db,
        r.settlementID = s.settlementID → r = s := by
  intro pending
  induction pending with
  | nil => exact fun db _ hall hmem => ⟨hmem, hall⟩
  | cons p ps ih =>
    intro db hpend hall hmem
    rw [List.foldl_cons]
    obtain ⟨hmem', hall'⟩ := processOne_preserves now verify s p
      (hpend p (List.mem_cons_self p ps)) db hall hmem
    exact ih _ (fun p' hp' => hpend p' (List.mem_cons_of_mem p hp')) hall' hmem'

/-- C8: under unique settlement IDs, a tick of the settlement loop never
touches a PENDING settlement whose scheduled date is still in the future, and
never touches a FAILED settlement: the row survives the tick unchanged and no
row with its ID is altered. In particular PENDING never becomes SETTLING
before `now ≥ settlementDate`, and FAILED never transitions at all. -/
theorem settlement_no_premature_or_failed_transition (now : Int)
    (verify : settlement.Settlement → Bool) (db : List settlement.Settlement)
    (s : settlement.Settlement)
    (hnodup : (db.map settlement.Settlement.settlementID).Nodup) (hs : s ∈ db)
    (hcase : s.settlementStatus = "FAILED" ∨
      (s.settlementStatus = "PENDING" ∧ now < s.settlementDate)) :
    s ∈ settlement.processPendingSettlements now verify db ∧
    ∀ r ∈ settlement.processPendingSettlements now verify db,
      r.settlementID = s.settlementID → r = s := by
  unfold settlement.processPendingSettlements settlement.getPendingSettlements
  apply foldl_processOne_preserves
  · intro p hp hid
    have hpmem : p ∈ db := List.mem_of_mem_filter hp
    have hpstat := List.of_mem_filter hp
    simp only [beq_iff_eq] at hpstat
    have hps : p = s := List.inj_on_of_nodup_map hnodup hpmem hs hid
    subst hps
    rcases hcase with hF | ⟨_, hd⟩
    · rw [hF] at hpstat
      exact absurd hpstat (by decide)
    · exact Or.inl hd
  · exact fun r hr hid => List.inj_on_of_nodup_map hnodup hr hs hid
  · exact hs

/-- C8 witness: a concrete FAILED settlement with a past-due date survives a
tick at time 100 untouched. -/
theorem settlement_no_premature_or_failed_transition_witness :
    c8Failed ∈ settlement.processPendingSettlements 100 (fun _ => false) [c8Failed] :=
  (settlement_no_premature_or_failed_transition 100 (fun _ => false) [c8Failed]
    c8Failed (by decide) (by decide) (Or.inl rfl)).1

/-- C10: replaying `CreateOrder` with an idempotency key whose stored record
has expired does not return the stored order: the code falls through to the
creation path, and inserting the second idempotency record with the same key
violates the key's unique index, so the transaction rolls back and the call
returns the constraint error with the database unchanged. -/
theorem create_order_expired_key (now : Int) (newID : String) (order : types.Order)
    (key : String) (db : trading.TradingDB) (r0 : trading.IdempotencyRecord)
    (hfind : db.idempotencyRecords.find? (fun r => r.idempotencyKey == key) = some r0)
    (hexp : r0.expiresAt ≤ now)
    (hfresh : ∀ o ∈ db.orders, o.orderID ≠ newID) :
    trading.createOrder now newID order key db =
      (.error "UNIQUE constraint failed: idempotency_records.idempotency_key", db) := by
  have hmem := List.mem_of_find?_eq_some hfind
  have hpred := List.find?_some hfind
  have key_mem : db.idempotencyRecords.any (fun r => r.idempotencyKey == key) = true := by
    rw [List.any_eq_true]
    exact ⟨r0, hmem, hpred⟩
  have orders_ok : db.orders.any (fun o => o.orderID == newID) = false := by
    rw [List.any_eq_false]
    intro o ho
    simp only [beq_iff_eq]
    exact hfresh o ho
  unfold trading.createOrder trading.getIdempotencyRecord
  rw [hfind]
  simp only [Option.getD_some]
  rw [if_neg (not_lt.mpr hexp)]
  unfold trading.createOrderWithIdempotency
  dsimp only
  rw [orders_ok]
  simp only [Bool.false_eq_true, if_false]
  rw [key_mem]
  simp

/-- C10 witness: the concrete replay at time 100 against the record that
expired at time 50 returns the unique-index error and leaves the database
unchanged. -/
theorem create_order_expired_key_witness :
    trading.createOrder 100 "NEW" c10NewOrder "KEY" c10Db =
      (.error "UNIQUE constraint failed: idempotency_records.idempotency_key", c10Db) :=
  create_order_expired_key 100 "NEW" c10NewOrder "KEY" c10Db c10Record rfl
    (by decide) (by decide)

end Klear
